import Mathlib

/-!
# Verification records page (`assets/src/admin/pages/Verifications.js`)

A shallow embedding of the pure part of the admin page that lists the
verification records of a chat: the URL query parsers (`parseOffset`,
`parseTimeRange`, `parseStatus`), the canonical query string
(`makeQueryString`), the status option lookup (`findStatusOption`), the
status badge (`statusUI`), the fetch key handed to `useSWR`, the pagination
links, the readiness test `isLoaded` with the three-way render branch, and
the kick / ban click handlers.

JavaScript values are embedded as follows.

* `JSValue` holds the primitive values the page passes around: `undefined`,
  `null`, booleans, numbers and strings.
* `JSNumber` holds the numbers that can arise here: `NaN`, the two
  infinities and the integer-valued doubles.  `parseInt` only produces
  such numbers and the page only adds or subtracts integers.  The two
  zeros are identified (`fin 0`): the page observes a number only through
  truthiness, `<`, `+`, `-` and `ToString`, and none of them tells `-0`
  from `+0`.  Arithmetic rounds to the nearest double (`roundToDouble`),
  ties to even, so it is exact up to `2^53` and lossy above.
* Strings are Lean strings; template literals are concatenations of the
  `ToString` of their holes.
* The responses of the two endpoints are records with the fields the page
  reads; an optional field is an `Option`, `none` standing for `undefined`,
  and reading a property of `undefined` raises a `TypeError`.  The transport
  error of the list fetch is `undefined` or an `Error` object.  Where the
  page tests such a value for truthiness the test is `truthyObject`.
-/

namespace Verifications

/-! ## Numbers -/

/-- The number values of the page: `NaN`, `+∞` / `-∞`, and the doubles with
an integer value (`fin 0` stands for both zeros). -/
inductive JSNumber where
  | nan
  | inf (negative : Bool)
  | fin (i : Int)
  deriving DecidableEq, Repr

/-- Number of binary digits of `n` (`0` for `0`), by halving with fuel. -/
def bitLengthAux : Nat → Nat → Nat
  | 0, _ => 0
  | fuel + 1, n => if n = 0 then 0 else bitLengthAux fuel (n / 2) + 1

/-- Number of binary digits of `n`. -/
def bitLength (n : Nat) : Nat := bitLengthAux n n

/-- Round a natural number to the nearest double (53 significant bits, ties
to even); `none` when the result overflows to infinity. -/
def roundNat (m : Nat) : Option Nat :=
  if m < 2 ^ 53 then some m
  else
    let e := bitLength m - 53
    let q := m / 2 ^ e
    let r := m % 2 ^ e
    let half := 2 ^ (e - 1)
    let q1 := if half < r ∨ (r = half ∧ q % 2 = 1) then q + 1 else q
    let v := q1 * 2 ^ e
    if 1024 < bitLength v then none else some v

/-- The Number value of a mathematical integer. -/
def roundToDouble (i : Int) : JSNumber :=
  match roundNat i.natAbs with
  | none => JSNumber.inf (decide (i < 0))
  | some m => JSNumber.fin (if i < 0 then -(m : Int) else (m : Int))

/-- The `+` operator on two numbers. -/
def jsAdd : JSNumber → JSNumber → JSNumber
  | JSNumber.fin a, JSNumber.fin b => roundToDouble (a + b)
  | JSNumber.nan, _ => JSNumber.nan
  | _, JSNumber.nan => JSNumber.nan
  | JSNumber.inf s, JSNumber.inf t => if s = t then JSNumber.inf s else JSNumber.nan
  | JSNumber.inf s, JSNumber.fin _ => JSNumber.inf s
  | JSNumber.fin _, JSNumber.inf t => JSNumber.inf t

/-- Unary minus. -/
def jsNeg : JSNumber → JSNumber
  | JSNumber.nan => JSNumber.nan
  | JSNumber.inf s => JSNumber.inf (!s)
  | JSNumber.fin a => JSNumber.fin (-a)

/-- The `-` operator on two numbers. -/
def jsSub (a b : JSNumber) : JSNumber := jsAdd a (jsNeg b)

/-- The `<` operator on two numbers (`false` as soon as one is `NaN`). -/
def jsLt : JSNumber → JSNumber → Bool
  | JSNumber.fin a, JSNumber.fin b => decide (a < b)
  | JSNumber.nan, _ => false
  | _, JSNumber.nan => false
  | JSNumber.inf s, JSNumber.inf t => s && !t
  | JSNumber.inf s, JSNumber.fin _ => s
  | JSNumber.fin _, JSNumber.inf t => !t

/-! ## Number to string -/

/-- Decimal digits of `n`, most significant first, with fuel. -/
def decimalAux : Nat → Nat → List Char
  | 0, _ => []
  | fuel + 1, n =>
    if n < 10 then [Nat.digitChar n]
    else decimalAux fuel (n / 10) ++ [Nat.digitChar (n % 10)]

/-- Decimal digits of `n`, most significant first (`"0"` for `0`). -/
def decimal (n : Nat) : List Char := decimalAux (n + 1) n

/-- The candidates `(s, n)` with `k` digits for the shortest decimal
representation of the double `x`: `10^(k-1) ≤ s < 10^k` and `s * 10^(n-k)`
rounds to `x`.  Only the two multiples of `10^(n-k)` around `x` can be the
closest ones. -/
def shortestCandidates (x k : Nat) : List (Nat × Nat) :=
  let len := (decimal x).length
  [len, len + 1].flatMap fun n =>
    let p := 10 ^ (n - k)
    ([x / p, x / p + 1].filter fun s =>
      decide (k ≤ n) && decide (10 ^ (k - 1) ≤ s) && decide (s < 10 ^ k)
        && decide (roundNat (s * p) = some x)).map fun s => (s, n)

/-- Distance between `s * 10^(n-k)` and `x`. -/
def candidateError (x k : Nat) (c : Nat × Nat) : Nat :=
  let v := c.1 * 10 ^ (c.2 - k)
  if v < x then x - v else v - x

/-- Pick the candidate closest to `x`, an even `s` on a tie. -/
def closestCandidate (x k : Nat) : List (Nat × Nat) → Option (Nat × Nat)
  | [] => none
  | c :: cs =>
    match closestCandidate x k cs with
    | none => some c
    | some d =>
      if candidateError x k c < candidateError x k d then some c
      else if candidateError x k d < candidateError x k c then some d
      else if c.1 % 2 = 0 then some c else some d

/-- Search `k = 1, 2, ...` for the least number of digits that has a
candidate; gives `(s, n, k)`. -/
def shortestSearch (x : Nat) : Nat → Nat → Option (Nat × Nat × Nat)
  | 0, _ => none
  | fuel + 1, k =>
    match closestCandidate x k (shortestCandidates x k) with
    | some c => some (c.1, c.2, k)
    | none => shortestSearch x fuel (k + 1)

/-- `Number::toString` of a positive integer-valued double `x`.  Below
`2^53` every integer is a double, so the shortest representation is the
decimal expansion itself.  Above, the digits are the shortest `s` (with `k`
digits) such that `s * 10^(n-k)` rounds to `x`, written out with `n - k`
zeros when `n ≤ 21` and in exponent form otherwise. -/
def natToString (x : Nat) : List Char :=
  if x < 2 ^ 53 then decimal x
  else
    match shortestSearch x 17 1 with
    | none => decimal x
    | some (s, n, k) =>
      if n ≤ 21 then decimal s ++ List.replicate (n - k) '0'
      else
        match decimal s with
        | [] => []
        | [d] => d :: 'e' :: '+' :: decimal (n - 1)
        | d :: ds => d :: '.' :: (ds ++ 'e' :: '+' :: decimal (n - 1))

/-- `Number::toString` (radix 10). -/
def numToString : JSNumber → String
  | JSNumber.nan => "NaN"
  | JSNumber.inf false => "Infinity"
  | JSNumber.inf true => "-Infinity"
  | JSNumber.fin i =>
    if i < 0 then String.mk ('-' :: natToString i.natAbs)
    else String.mk (natToString i.natAbs)

/-! ## Values -/

/-- The primitive values the page handles. -/
inductive JSValue where
  | undefined
  | null
  | bool (b : Bool)
  | num (n : JSNumber)
  | str (s : String)
  deriving DecidableEq, Repr

/-- `ToBoolean`. -/
def truthy : JSValue → Bool
  | JSValue.undefined => false
  | JSValue.null => false
  | JSValue.bool b => b
  | JSValue.num JSNumber.nan => false
  | JSValue.num (JSNumber.inf _) => true
  | JSValue.num (JSNumber.fin i) => decide (i ≠ 0)
  | JSValue.str s => decide (s ≠ "")

/-- `ToString` of a primitive value. -/
def toStr : JSValue → String
  | JSValue.undefined => "undefined"
  | JSValue.null => "null"
  | JSValue.bool true => "true"
  | JSValue.bool false => "false"
  | JSValue.num n => numToString n
  | JSValue.str s => s

/-! ## `parseInt` -/

/-- The code points `parseInt` skips at the start of its input: white space
(TAB, VT, FF, SP, NBSP, ZWNBSP, the space separators) and line
terminators (LF, CR, LS, PS). -/
def isStrWhiteSpaceChar (c : Char) : Bool :=
  [0x09, 0x0A, 0x0B, 0x0C, 0x0D, 0x20, 0xA0, 0x1680, 0x2000, 0x2001, 0x2002,
    0x2003, 0x2004, 0x2005, 0x2006, 0x2007, 0x2008, 0x2009, 0x200A, 0x2028,
    0x2029, 0x202F, 0x205F, 0x3000, 0xFEFF].contains c.toNat

/-- Value of a digit in radix up to 36: `0`-`9`, then `a`-`z` or `A`-`Z`
for ten to thirty-five. -/
def digitValue (c : Char) : Option Nat :=
  if 48 ≤ c.toNat ∧ c.toNat ≤ 57 then some (c.toNat - 48)
  else if 97 ≤ c.toNat ∧ c.toNat ≤ 122 then some (c.toNat - 87)
  else if 65 ≤ c.toNat ∧ c.toNat ≤ 90 then some (c.toNat - 55)
  else none

/-- Whether `c` is a digit of radix `radix`. -/
def isRadixDigit (radix : Nat) (c : Char) : Bool :=
  match digitValue c with
  | some d => decide (d < radix)
  | none => false

/-- Integer denoted by a run of digits in radix `radix`. -/
def digitsValue (radix : Nat) (ds : List Char) : Nat :=
  ds.foldl (fun acc c => acc * radix + (digitValue c).getD 0) 0

/-- Read an optional sign: whether it is `-`, and the rest. -/
def stripSign : List Char → Bool × List Char
  | [] => (false, [])
  | c :: rest =>
    if c = '-' then (true, rest)
    else if c = '+' then (false, rest)
    else (false, c :: rest)

/-- Read an optional `0x` / `0X` prefix: the radix, and the rest. -/
def stripRadixPrefix : List Char → Nat × List Char
  | c :: d :: rest =>
    if c = '0' ∧ (d = 'x' ∨ d = 'X') then (16, rest) else (10, c :: d :: rest)
  | s => (10, s)

/-- `parseInt(string)` with no radix argument: skip leading white space,
read a sign, switch to radix 16 after `0x` / `0X`, read the longest run of
digits; `NaN` when the run is empty, else the Number value of the signed
integer the run denotes. -/
def parseIntChars (input : List Char) : JSNumber :=
  let signed := stripSign (input.dropWhile isStrWhiteSpaceChar)
  let based := stripRadixPrefix signed.2
  let z := based.2.takeWhile (isRadixDigit based.1)
  if z.isEmpty then JSNumber.nan
  else if signed.1 then roundToDouble (-(digitsValue based.1 z : Int))
  else roundToDouble (digitsValue based.1 z : Int)

/-- `parseInt(value)`: the argument is first converted with `ToString`. -/
def parseInt (v : JSValue) : JSNumber := parseIntChars (toStr v).toList

/-- The `try` block around `parseInt`: the call raises only when `ToString`
of its argument does, which no primitive value does. -/
def tryParseInt (v : JSValue) : Except String JSNumber := Except.ok (parseInt v)

/-! ## Comparisons -/

/-- The `===` operator on primitive values. -/
def strictEq : JSValue → JSValue → Bool
  | JSValue.num JSNumber.nan, _ => false
  | _, JSValue.num JSNumber.nan => false
  | a, b => decide (a = b)

/-- The comparison `SameValueZero`, which `Array.prototype.includes` uses. -/
def sameValueZero (a b : JSValue) : Bool := decide (a = b)

/-- `array.includes(v)` for an array of strings. -/
def includes (array : List String) (v : JSValue) : Bool :=
  array.any fun x => sameValueZero (JSValue.str x) v

/-- The test `v != "all"`.  A string is compared as a string; `undefined`
and `null` equal no string; a boolean or a number is compared with
`ToNumber("all")`, which is `NaN` and equals nothing. -/
def looseNeAll : JSValue → Bool
  | JSValue.str s => decide (s ≠ "all")
  | _ => true

/-! ## The query parsers -/

/-- A status filter option of the selector. -/
structure StatusOption where
  value : String
  label : String
  deriving DecidableEq, Repr

/-- `defaultStatusOption`. -/
def defaultStatusOption : StatusOption := { value := "all", label := "不限" }

/-- `statusOptions`. -/
def statusOptions : List StatusOption :=
  [defaultStatusOption,
   { value := "not_passed", label := "未通过" },
   { value := "passed", label := "已通过" }]

/-- `findStatusOption(value)`. -/
def findStatusOption (value : JSValue) : StatusOption :=
  let options := statusOptions.filter fun option => strictEq (JSValue.str option.value) value
  match options with
  | [] => defaultStatusOption
  | first :: _ => first

/-- `parseOffset(offset)`. -/
def parseOffset (offset : JSValue) : JSNumber :=
  if truthy offset then
    match tryParseInt offset with
    | Except.ok n => n
    | Except.error _ => JSNumber.fin 0
  else JSNumber.fin 0

/-- `parseTimeRange(timeRange)`. -/
def parseTimeRange (timeRange : JSValue) : JSValue :=
  if includes ["1d", "1w", "2w", "1m"] timeRange then timeRange else JSValue.str "1d"

/-- `parseStatus(status)`. -/
def parseStatus (status : JSValue) : JSValue :=
  if includes ["all", "not_passed", "passed"] status then status else JSValue.str "all"

/-- The argument object of `makeQueryString`. -/
structure QueryParams where
  status : JSValue
  timeRange : JSValue
  offset : JSValue
  deriving DecidableEq, Repr

/-- `makeQueryString({ status, timeRange, offset })`. -/
def makeQueryString (params : QueryParams) : String :=
  let status := parseStatus params.status
  let timeRange := parseTimeRange params.timeRange
  let offset := parseOffset params.offset
  let queryString := "?timeRange=" ++ toStr timeRange ++ "&offset=" ++ numToString offset
  if looseNeAll status then queryString ++ "&status=" ++ toStr status else queryString

/-! ## The status badge -/

/-- The `span` that `statusUI` renders: its `style.color` (`none` when the
variable `color` is left `undefined`) and its text. -/
structure Badge where
  color : Option String
  text : String
  deriving DecidableEq, Repr

/-- `statusUI(status)`: the `switch` compares with `===`. -/
def statusUI (status : JSValue) : Badge :=
  if strictEq status (JSValue.str "waiting") then { color := some "khaki", text := "等待" }
  else if strictEq status (JSValue.str "passed") then { color := some "green", text := "通过" }
  else if strictEq status (JSValue.str "timeout") then { color := some "red", text := "超时" }
  else if strictEq status (JSValue.str "wronged") then { color := some "red", text := "错误" }
  else if strictEq status (JSValue.str "expired") then
    { color := some "darkkhaki", text := "过期" }
  else { color := none, text := "未知" }

/-! ## The fetch key -/

/-- Modelled from the spec: the chats slice of the shared store is not part
of the sources; the page reads its loaded flag and its selected chat id. -/
structure ChatsState where
  isLoaded : Bool
  selected : JSValue
  deriving DecidableEq, Repr

/-- The three parameters read from the URL with `searchParams.get`. -/
structure SearchParams where
  status : JSValue
  timeRange : JSValue
  offset : JSValue
  deriving DecidableEq, Repr

/-- `makeEndpoint(chatId, queryString)`. -/
def makeEndpoint (chatId : JSValue) (queryString : String) : String :=
  "/admin/api/chats/" ++ toStr chatId ++ "/verifications" ++ queryString

/-- `apiQueryString` of the page: the status is passed raw, the time range
and the offset already parsed. -/
def apiQueryString (search : SearchParams) : String :=
  makeQueryString
    { status := search.status
      timeRange := parseTimeRange search.timeRange
      offset := JSValue.num (parseOffset search.offset) }

/-- The key handed to `useSWR` (`none` is `null`: no request is made).  The
state is `none` when `state.chats` is `undefined`. -/
def fetchKey (chatsState : Option ChatsState) (search : SearchParams) : Option String :=
  match chatsState with
  | none => none
  | some chats =>
    if chats.isLoaded && truthy chats.selected then
      some (makeEndpoint chats.selected (apiQueryString search))
    else none

/-! ## Pagination -/

/-- The props the page gives to `Pagination`. -/
structure PaginationProps where
  begin : JSNumber
  ending : JSNumber
  upTo : String
  downTo : String
  deriving DecidableEq, Repr

/-- The `Pagination` element of the loaded page, from the raw `status`, the
parsed `timeRange` and `offset`, and `data.verifications.length`. -/
def pagination (status timeRange : JSValue) (offset : JSNumber) (length : Nat) :
    PaginationProps :=
  { begin := jsAdd offset (JSNumber.fin 1)
    ending := jsAdd offset (JSNumber.fin length)
    upTo := makeQueryString
      { status := status
        timeRange := timeRange
        offset := JSValue.num
          (if jsLt offset (JSNumber.fin 25) then JSNumber.fin 0
           else jsSub offset (JSNumber.fin 25)) }
    downTo := makeQueryString
      { status := status
        timeRange := timeRange
        offset := JSValue.num (jsAdd offset (JSNumber.fin 25)) } }

/-- The target of the time-range link for `range`, from the selected status
option and the parsed offset. -/
def timeLink (statusOption : StatusOption) (range : String) (offset : JSNumber) : String :=
  makeQueryString
    { status := JSValue.str statusOption.value
      timeRange := JSValue.str range
      offset := JSValue.num offset }

/-- An integer written in decimal, with a leading `-` when negative. -/
def intDecimal (i : Int) : String :=
  if i < 0 then String.mk ('-' :: decimal i.natAbs) else String.mk (decimal i.natAbs)

/-- The canonical query string in the words of the specification:
`?timeRange=<t>&offset=<o>[&status=<s>]`, the status being left out when it
is `all`, for an integer offset `o` written in decimal. -/
def canonicalQueryString (status timeRange : String) (offset : Int) : String :=
  "?timeRange=" ++ timeRange ++ "&offset=" ++ intDecimal offset ++
    (if status = "all" then "" else "&status=" ++ status)

/-- A decimal integer literal, an optional `-` followed by a non-empty run
of decimal digits, and the integer it denotes; `none` for any other text. -/
def decimalInteger : List Char → Option Int
  | [] => none
  | c :: rest =>
    if c = '-' then
      if !rest.isEmpty && rest.all (isRadixDigit 10) then some (-(digitsValue 10 rest : Int))
      else none
    else if (c :: rest).all (isRadixDigit 10) then some (digitsValue 10 (c :: rest) : Int)
    else none

/-- The offset a well-formed URL parameter stands for, in the words of the
specification: `0` when the parameter is absent or empty, the integer when
it is a decimal integer literal; `none` when it is malformed. -/
def wellFormedOffset : JSValue → Option Int
  | JSValue.undefined => some 0
  | JSValue.null => some 0
  | JSValue.str s => if s = "" then some 0 else decimalInteger s.toList
  | _ => none

/-! ## Responses -/

/-- Modelled from the spec: the record of one verification, as the backend
serves it (the backend is not part of the sources). -/
structure VerificationRecord where
  id : Int
  targetUserId : Int
  targetUserName : String
  targetUserLanguageCode : Option String
  status : String
  insertedAt : String
  updatedAt : String
  deriving DecidableEq, Repr

/-- Modelled from the spec: the chat of a page of records. -/
structure Chat where
  title : String
  deriving DecidableEq, Repr

/-- Modelled from the spec: the payload of the list endpoint,
`{chat, verifications[], errors?}`; `errors`, when present, is an array of
strings (an object, hence truthy even when empty). -/
structure PageResult where
  chat : Chat
  verifications : List VerificationRecord
  errors : Option (List String)
  deriving DecidableEq, Repr

/-- Modelled from the spec: the response of the kick endpoint,
`{ok?, verification?, errors?}`. -/
structure ActionResult where
  ok : Option Bool
  verification : Option VerificationRecord
  errors : Option (List String)
  deriving DecidableEq, Repr

/-- The argument of a `toastErrors` call: the page passes either a list of
errors or one template string. -/
inductive ToastArg where
  | list (errors : List String)
  | text (message : String)
  deriving DecidableEq, Repr

/-- A notification the page emits. -/
inductive Toast where
  | toastErrors (arg : ToastArg)
  | toastMessage (message : String)
  deriving DecidableEq, Repr

/-- An exception raised while a handler runs. -/
inductive JSError where
  | typeError
  deriving DecidableEq, Repr

/-! ## The click handlers -/

/-- The expression `result.verification.targetUserName`: reading a property
of `undefined` raises a `TypeError`. -/
def targetUserNameOf (result : ActionResult) : Except JSError String :=
  match result.verification with
  | none => Except.error JSError.typeError
  | some verification => Except.ok verification.targetUserName

/-- `handleKickClick`, after the response `result` of the request came
back: the notifications emitted, or the exception raised. -/
def handleKickClick (result : ActionResult) : Except JSError (List Toast) :=
  if result.errors.isSome then
    Except.ok [Toast.toastErrors (ToastArg.list (result.errors.getD []))]
  else if result.ok = some true then do
    let name ← targetUserNameOf result
    Except.ok [Toast.toastMessage ("踢出「" ++ name ++ "」成功。")]
  else do
    let name ← targetUserNameOf result
    Except.ok [Toast.toastErrors (ToastArg.text ("不太确定踢出「" ++ name ++ "」是否成功。"))]

/-- `handleBanClick`, after the response `result` of the request came
back: the notifications emitted, or the exception raised. -/
def handleBanClick (result : ActionResult) : Except JSError (List Toast) :=
  if result.errors.isSome then
    Except.ok [Toast.toastErrors (ToastArg.list (result.errors.getD []))]
  else if result.ok = some true then do
    let name ← targetUserNameOf result
    Except.ok [Toast.toastMessage ("封禁「" ++ name ++ "」成功。")]
  else do
    let name ← targetUserNameOf result
    Except.ok [Toast.toastErrors (ToastArg.text ("不太确定封禁「" ++ name ++ "」是否成功。"))]

/-! ## Readiness and the render branch -/

/-- Modelled from the spec: the transport error `useSWR` reports for the list
fetch.  The fetcher is not part of the sources; a failed request rejects
with an `Error` object. -/
structure TransportError where
  message : String
  deriving DecidableEq, Repr

/-- `ToBoolean` of a value that is either `undefined` (`none`) or an object
(an `Error`, a payload, an array): `undefined` is falsy, every object is
truthy. -/
def truthyObject {α : Type} : Option α → Bool
  | none => false
  | some _ => true

/-- `isLoaded()`: `chatsState.isLoaded && !error && data && !data.errors`,
each operand tested for truthiness; `data.errors` is read only when `data`
is truthy. -/
def isLoaded (chatsState : ChatsState) (error : Option TransportError)
    (data : Option PageResult) : Bool :=
  chatsState.isLoaded && !truthyObject error && truthyObject data &&
    (match data with
     | some d => !truthyObject d.errors
     | none => false)

/-- What the list section renders. -/
inductive View where
  | table
  | pageReLoading
  | pageLoading
  deriving DecidableEq, Repr

/-- The render branch: `isLoaded() ? table : error ? PageReLoading : PageLoading`. -/
def view (chatsState : ChatsState) (error : Option TransportError)
    (data : Option PageResult) : View :=
  if isLoaded chatsState error data then View.table
  else if truthyObject error then View.pageReLoading
  else View.pageLoading

/-- A side effect of the `useEffect` hook on `data`. -/
inductive Effect where
  | toast (t : Toast)
  | dispatchLoadSelected (chat : Chat)
  deriving DecidableEq, Repr

/-- The body of the `useEffect` hook on `data`:
`if (data && data.errors) toastErrors(data.errors)`, then
`if (isLoaded()) dispatch(loadSelected(data.chat))`. -/
def dataEffect (chatsState : ChatsState) (error : Option TransportError)
    (data : Option PageResult) : List Effect :=
  (match data with
   | some d =>
     if truthyObject data && truthyObject d.errors then
       [Effect.toast (Toast.toastErrors (ToastArg.list (d.errors.getD [])))]
     else []
   | none => []) ++
  (if isLoaded chatsState error data then
     match data with
     | some d => [Effect.dispatchLoadSelected d.chat]
     | none => []
   else [])

/-! ## Shared lemmas -/

/-- Against a string, `===` is equality of values. -/
theorem strictEq_str_right (v : JSValue) (s : String) :
    strictEq v (JSValue.str s) = decide (v = JSValue.str s) := by
  cases v with
  | num n => cases n <;> simp [strictEq]
  | _ => simp [strictEq]

/-- Against a string, `===` is equality of values. -/
theorem strictEq_str_left (s : String) (v : JSValue) :
    strictEq (JSValue.str s) v = decide (JSValue.str s = v) := by
  cases v with
  | num n => cases n <;> simp [strictEq]
  | _ => simp [strictEq]

/-- The three possible results of `parseStatus`, with the input that gives
each. -/
theorem parseStatus_cases (v : JSValue) :
    (v ≠ JSValue.str "not_passed" ∧ v ≠ JSValue.str "passed" ∧
        parseStatus v = JSValue.str "all") ∨
      (v = JSValue.str "not_passed" ∧ parseStatus v = JSValue.str "not_passed") ∨
      (v = JSValue.str "passed" ∧ parseStatus v = JSValue.str "passed") := by
  by_cases h1 : v = JSValue.str "all" <;> by_cases h2 : v = JSValue.str "not_passed" <;>
    by_cases h3 : v = JSValue.str "passed" <;>
    simp_all [parseStatus, includes, sameValueZero, eq_comm]

/-- The parser `parseStatus` is idempotent. -/
theorem parseStatus_idem (v : JSValue) : parseStatus (parseStatus v) = parseStatus v := by
  rcases parseStatus_cases v with ⟨_, _, h⟩ | ⟨_, h⟩ | ⟨_, h⟩ <;> rw [h] <;> decide

/-- The parser `parseTimeRange` is idempotent. -/
theorem parseTimeRange_idem (v : JSValue) :
    parseTimeRange (parseTimeRange v) = parseTimeRange v := by
  by_cases h1 : v = JSValue.str "1d" <;> by_cases h2 : v = JSValue.str "1w" <;>
    by_cases h3 : v = JSValue.str "2w" <;> by_cases h4 : v = JSValue.str "1m" <;>
    simp_all [parseTimeRange, includes, sameValueZero, eq_comm]

/-! ## Decimal digits read back by `parseInt` -/

/-- A digit character has its digit as value. -/
theorem digitValue_digitChar (m : Nat) (h : m < 10) :
    digitValue (Nat.digitChar m) = some m := by
  interval_cases m <;> rfl

/-- A decimal digit is a character between `0` and `9`. -/
theorem isRadixDigit_ten_bounds (c : Char) (h : isRadixDigit 10 c = true) :
    48 ≤ c.toNat ∧ c.toNat ≤ 57 := by
  unfold isRadixDigit digitValue at h
  split_ifs at h with h1 h2 h3
  · exact h1
  · simp at h; omega
  · simp at h; omega

/-- The value of a run of digits followed by one more digit. -/
theorem digitsValue_append_singleton (radix : Nat) (ds : List Char) (c : Char) :
    digitsValue radix (ds ++ [c]) = digitsValue radix ds * radix + (digitValue c).getD 0 := by
  simp [digitsValue, List.foldl_append]

/-- With enough fuel, the decimal expansion of `n` is a non-empty run of
decimal digits whose value is `n`. -/
theorem decimalAux_spec (fuel : Nat) :
    ∀ n : Nat, n < fuel →
      (∀ c ∈ decimalAux fuel n, isRadixDigit 10 c = true) ∧ decimalAux fuel n ≠ [] ∧
        digitsValue 10 (decimalAux fuel n) = n := by
  induction fuel with
  | zero => intro n h; omega
  | succ fuel ih =>
    intro n hn
    unfold decimalAux
    by_cases h10 : n < 10
    · simp only [h10, if_true]
      refine ⟨?_, by simp, ?_⟩
      · intro c hc
        simp only [List.mem_singleton] at hc
        subst hc
        simp [isRadixDigit, digitValue_digitChar n h10, h10]
      · simp [digitsValue, digitValue_digitChar n h10]
    · simp only [h10, if_false]
      obtain ⟨hall, _, hval⟩ := ih (n / 10) (by omega)
      have hmod : n % 10 < 10 := Nat.mod_lt _ (by decide)
      refine ⟨?_, by simp, ?_⟩
      · intro c hc
        rcases List.mem_append.mp hc with hc | hc
        · exact hall c hc
        · simp only [List.mem_singleton] at hc
          subst hc
          simp [isRadixDigit, digitValue_digitChar _ hmod, hmod]
      · rw [digitsValue_append_singleton, hval, digitValue_digitChar _ hmod]
        simp only [Option.getD_some]
        omega

/-- The decimal expansion of `n` is a non-empty run of decimal digits whose
value is `n`. -/
theorem decimal_spec (n : Nat) :
    (∀ c ∈ decimal n, isRadixDigit 10 c = true) ∧ decimal n ≠ [] ∧
      digitsValue 10 (decimal n) = n :=
  decimalAux_spec (n + 1) n (Nat.lt_succ_self n)

/-- On a non-empty run of decimal digits, `parseInt` reads no white space,
no sign and no hexadecimal prefix, and takes the whole run. -/
theorem parseIntChars_digits (l : List Char) (hall : ∀ c ∈ l, isRadixDigit 10 c = true)
    (hne : l ≠ []) :
    parseIntChars l = roundToDouble (digitsValue 10 l) ∧
      parseIntChars ('-' :: l) = roundToDouble (-(digitsValue 10 l : Int)) := by
  obtain ⟨c, rest, rfl⟩ := List.exists_cons_of_ne_nil hne
  have hc := isRadixDigit_ten_bounds c (hall c (List.mem_cons_self _ _))
  have hws : isStrWhiteSpaceChar c = false := by
    simp only [isStrWhiteSpaceChar, List.contains_eq_any_beq, List.any_cons, List.any_nil,
      Bool.or_false, Bool.or_eq_false_iff, beq_eq_false_iff_ne, ne_eq]
    omega
  have hminus : c ≠ '-' := by
    intro h; subst h; simp at hc
  have hplus : c ≠ '+' := by
    intro h; subst h; simp at hc
  have hradix : stripRadixPrefix (c :: rest) = (10, c :: rest) := by
    cases rest with
    | nil => rfl
    | cons d r =>
      have hd := isRadixDigit_ten_bounds d (hall d (by simp))
      have hx : d ≠ 'x' := by
        intro h; subst h; simp at hd
      have hX : d ≠ 'X' := by
        intro h; subst h; simp at hd
      simp [stripRadixPrefix, hx, hX]
  have htake : List.takeWhile (isRadixDigit 10) (c :: rest) = c :: rest :=
    List.takeWhile_eq_self_iff.mpr hall
  constructor
  · simp [parseIntChars, List.dropWhile, hws, stripSign, hminus, hplus, hradix, htake]
  · have hws2 : isStrWhiteSpaceChar '-' = false := by decide
    simp [parseIntChars, List.dropWhile, hws2, stripSign, hradix, htake]

/-- An integer below `2^53` in magnitude is its own Number value. -/
theorem roundToDouble_safe (j : Int) (h : j.natAbs < 2 ^ 53) :
    roundToDouble j = JSNumber.fin j := by
  simp only [roundToDouble, roundNat, h, if_true]
  by_cases hj : j < 0
  · simp only [hj, if_true]
    congr 1
    omega
  · simp only [hj, if_false]
    congr 1
    omega

/-- Below `2^53` the digits of `Number::toString` are the decimal ones. -/
theorem natToString_safe (x : Nat) (h : x < 2 ^ 53) : natToString x = decimal x := by
  unfold natToString
  rw [if_pos h]

/-- Below `2^53` in magnitude `Number::toString` writes the integer in
decimal. -/
theorem numToString_safe (j : Int) (h : j.natAbs < 2 ^ 53) :
    numToString (JSNumber.fin j) = intDecimal j := by
  simp only [numToString, intDecimal, natToString_safe _ h]

/-- Reading back with `parseInt` the string of an integer below `2^53` in
magnitude gives the integer. -/
theorem parseInt_fin_safe (j : Int) (h : j.natAbs < 2 ^ 53) :
    parseInt (JSValue.num (JSNumber.fin j)) = JSNumber.fin j := by
  obtain ⟨hall, hne, hval⟩ := decimal_spec j.natAbs
  obtain ⟨hpos, hneg⟩ := parseIntChars_digits (decimal j.natAbs) hall hne
  have hnat : natToString j.natAbs = decimal j.natAbs := natToString_safe _ h
  by_cases hj : j < 0
  · have : parseInt (JSValue.num (JSNumber.fin j)) = parseIntChars ('-' :: decimal j.natAbs) := by
      simp [parseInt, toStr, numToString, hj, hnat]
    rw [this, hneg, hval]
    have hj2 : -((j.natAbs : Nat) : Int) = j := by omega
    rw [hj2]
    exact roundToDouble_safe j h
  · have : parseInt (JSValue.num (JSNumber.fin j)) = parseIntChars (decimal j.natAbs) := by
      simp [parseInt, toStr, numToString, hj, hnat]
    rw [this, hpos, hval]
    have hj2 : ((j.natAbs : Nat) : Int) = j := by omega
    rw [hj2]
    exact roundToDouble_safe j h

/-- `parseOffset` leaves an integer below `2^53` in magnitude unchanged. -/
theorem parseOffset_fin_safe (j : Int) (h : j.natAbs < 2 ^ 53) :
    parseOffset (JSValue.num (JSNumber.fin j)) = JSNumber.fin j := by
  by_cases h0 : j = 0
  · subst h0
    rfl
  · simp [parseOffset, truthy, h0, tryParseInt, parseInt_fin_safe j h]

/-- On a well-formed URL offset that stands for an integer below `2^53` in
magnitude, `parseOffset` gives that integer. -/
theorem parseOffset_wellFormed (v : JSValue) (j : Int) (hv : wellFormedOffset v = some j)
    (h : j.natAbs < 2 ^ 53) : parseOffset v = JSNumber.fin j := by
  cases v with
  | undefined =>
    simp only [wellFormedOffset, Option.some.injEq] at hv
    subst hv; rfl
  | null =>
    simp only [wellFormedOffset, Option.some.injEq] at hv
    subst hv; rfl
  | bool b => simp [wellFormedOffset] at hv
  | num n => simp [wellFormedOffset] at hv
  | str s =>
    by_cases hs : s = ""
    · subst hs
      simp only [wellFormedOffset, if_true, Option.some.injEq] at hv
      subst hv; rfl
    · simp only [wellFormedOffset, hs, if_false] at hv
      have hparse : parseOffset (JSValue.str s) = parseIntChars s.toList := by
        simp [parseOffset, truthy, hs, tryParseInt, parseInt, toStr]
      rw [hparse]
      cases hl : s.toList with
      | nil => rw [hl] at hv; simp [decimalInteger] at hv
      | cons c rest =>
        rw [hl] at hv
        by_cases hc : c = '-'
        · subst hc
          by_cases hd : (!rest.isEmpty && rest.all (isRadixDigit 10)) = true
          · simp only [decimalInteger, if_true, hd, Option.some.injEq] at hv
            simp only [Bool.and_eq_true, Bool.not_eq_true', List.isEmpty_eq_false,
              List.all_eq_true] at hd
            rw [(parseIntChars_digits rest hd.2 hd.1).2, hv]
            exact roundToDouble_safe j h
          · simp [decimalInteger, hd] at hv
        · by_cases hd : (c :: rest).all (isRadixDigit 10) = true
          · simp only [decimalInteger, hc, if_false, hd, if_true, Option.some.injEq] at hv
            rw [(parseIntChars_digits (c :: rest) (List.all_eq_true.mp hd) (by simp)).1, hv]
            exact roundToDouble_safe j h
          · simp [decimalInteger, hc, hd] at hv

/-- When `parseOffset` gives an integer below `2^53` in magnitude, the query
string of `makeQueryString` is the canonical one. -/
theorem makeQueryString_of_parseOffset (params : QueryParams) (j : Int)
    (hp : parseOffset params.offset = JSNumber.fin j) (h : j.natAbs < 2 ^ 53) :
    makeQueryString params =
      canonicalQueryString (toStr (parseStatus params.status))
        (toStr (parseTimeRange params.timeRange)) j := by
  rcases parseStatus_cases params.status with ⟨_, _, hs⟩ | ⟨_, hs⟩ | ⟨_, hs⟩ <;>
    simp [makeQueryString, canonicalQueryString, hs, looseNeAll, toStr, hp,
      numToString_safe j h, String.append_assoc]

/-- The query string of `makeQueryString` at an integer offset below `2^53`
in magnitude is the canonical one. -/
theorem makeQueryString_fin_safe (status timeRange : JSValue) (j : Int)
    (h : j.natAbs < 2 ^ 53) :
    makeQueryString { status := status, timeRange := timeRange, offset := JSValue.num (JSNumber.fin j) }
      = canonicalQueryString (toStr (parseStatus status)) (toStr (parseTimeRange timeRange)) j := by
  rcases parseStatus_cases status with ⟨_, _, hs⟩ | ⟨_, hs⟩ | ⟨_, hs⟩ <;>
    simp [makeQueryString, canonicalQueryString, hs, looseNeAll, toStr,
      parseOffset_fin_safe j h, numToString_safe j h, String.append_assoc]

/-! ## The parsers of `status` and `timeRange` -/

/-- C3: for every input value, `parseStatus` returns the input unchanged
when it is one of `"all"`, `"not_passed"`, `"passed"` and `"all"` otherwise,
`parseTimeRange` returns the input unchanged when it is one of `"1d"`,
`"1w"`, `"2w"`, `"1m"` and `"1d"` otherwise; both are total functions (no
exception can arise) and their result always lies in the allowed set. -/
theorem parseStatus_parseTimeRange_spec (v : JSValue) :
    parseStatus v =
        (if v ∈ [JSValue.str "all", JSValue.str "not_passed", JSValue.str "passed"] then v
         else JSValue.str "all") ∧
      parseTimeRange v =
        (if v ∈ [JSValue.str "1d", JSValue.str "1w", JSValue.str "2w", JSValue.str "1m"]
         then v else JSValue.str "1d") ∧
      parseStatus v ∈ [JSValue.str "all", JSValue.str "not_passed", JSValue.str "passed"] ∧
      parseTimeRange v ∈
        [JSValue.str "1d", JSValue.str "1w", JSValue.str "2w", JSValue.str "1m"] := by
  have hs : parseStatus v =
      (if v ∈ [JSValue.str "all", JSValue.str "not_passed", JSValue.str "passed"] then v
       else JSValue.str "all") := by
    by_cases h1 : v = JSValue.str "all" <;> by_cases h2 : v = JSValue.str "not_passed" <;>
      by_cases h3 : v = JSValue.str "passed" <;>
      simp [parseStatus, includes, sameValueZero, h1, h2, h3, eq_comm]
  have ht : parseTimeRange v =
      (if v ∈ [JSValue.str "1d", JSValue.str "1w", JSValue.str "2w", JSValue.str "1m"]
       then v else JSValue.str "1d") := by
    by_cases h1 : v = JSValue.str "1d" <;> by_cases h2 : v = JSValue.str "1w" <;>
      by_cases h3 : v = JSValue.str "2w" <;> by_cases h4 : v = JSValue.str "1m" <;>
      simp [parseTimeRange, includes, sameValueZero, h1, h2, h3, h4, eq_comm]
  refine ⟨hs, ht, ?_, ?_⟩
  · rw [hs]
    split
    · assumption
    · simp
  · rw [ht]
    split
    · assumption
    · simp

/-! ## The canonical query string -/

/-- C2: for every input, `makeQueryString` returns exactly
`?timeRange=<t>&offset=<o>` when the effective status `parseStatus(status)`
is `"all"`, and that string followed by `&status=<s>` otherwise, where the
effective status `s` is then literally `"not_passed"` or `"passed"`;
`t = parseTimeRange(timeRange)` and `o = parseOffset(offset)`. -/
theorem makeQueryString_shape (params : QueryParams) :
    (parseStatus params.status = JSValue.str "all" ∧
        makeQueryString params =
          "?timeRange=" ++ toStr (parseTimeRange params.timeRange) ++ "&offset=" ++
            numToString (parseOffset params.offset)) ∨
      (parseStatus params.status = JSValue.str "not_passed" ∧
        makeQueryString params =
          "?timeRange=" ++ toStr (parseTimeRange params.timeRange) ++ "&offset=" ++
            numToString (parseOffset params.offset) ++ "&status=" ++ "not_passed") ∨
      (parseStatus params.status = JSValue.str "passed" ∧
        makeQueryString params =
          "?timeRange=" ++ toStr (parseTimeRange params.timeRange) ++ "&offset=" ++
            numToString (parseOffset params.offset) ++ "&status=" ++ "passed") := by
  rcases parseStatus_cases params.status with ⟨_, _, h⟩ | ⟨_, h⟩ | ⟨_, h⟩
  · left
    refine ⟨h, ?_⟩
    simp [makeQueryString, h, looseNeAll]
  · right; left
    refine ⟨h, ?_⟩
    simp [makeQueryString, h, looseNeAll, toStr]
  · right; right
    refine ⟨h, ?_⟩
    simp [makeQueryString, h, looseNeAll, toStr]

/-! ## The status badge -/

/-- C7: `statusUI` renders the label and colour of the table waiting ->
("等待", khaki), passed -> ("通过", green), timeout -> ("超时", red),
wronged -> ("错误", red), expired -> ("过期", darkkhaki), and for every
value outside these five the label "未知" with no colour set. -/
theorem statusUI_table :
    statusUI (JSValue.str "waiting") = { color := some "khaki", text := "等待" } ∧
      statusUI (JSValue.str "passed") = { color := some "green", text := "通过" } ∧
      statusUI (JSValue.str "timeout") = { color := some "red", text := "超时" } ∧
      statusUI (JSValue.str "wronged") = { color := some "red", text := "错误" } ∧
      statusUI (JSValue.str "expired") = { color := some "darkkhaki", text := "过期" } ∧
      ∀ v : JSValue,
        v ∉ [JSValue.str "waiting", JSValue.str "passed", JSValue.str "timeout",
          JSValue.str "wronged", JSValue.str "expired"] →
        statusUI v = { color := none, text := "未知" } := by
  refine ⟨by decide, by decide, by decide, by decide, by decide, ?_⟩
  intro v hv
  simp only [List.mem_cons, List.mem_singleton, List.not_mem_nil, or_false, not_or] at hv
  obtain ⟨h1, h2, h3, h4, h5⟩ := hv
  simp [statusUI, strictEq_str_right, h1, h2, h3, h4, h5]

/-! ## The status option -/

/-- C10: for every raw status value `v`, `findStatusOption(v).value` equals
`parseStatus(v)`; hence a time-range link, built from the option's value,
is the query string built from the raw status, as the pagination links and
the fetch query are. -/
theorem findStatusOption_value_eq_parseStatus (v : JSValue) :
    JSValue.str (findStatusOption v).value = parseStatus v ∧
      ∀ (range : String) (offset : JSNumber),
        timeLink (findStatusOption v) range offset =
          makeQueryString
            { status := v, timeRange := JSValue.str range, offset := JSValue.num offset } := by
  have key : JSValue.str (findStatusOption v).value = parseStatus v := by
    by_cases h1 : v = JSValue.str "all" <;> by_cases h2 : v = JSValue.str "not_passed" <;>
      by_cases h3 : v = JSValue.str "passed" <;>
      simp_all [findStatusOption, statusOptions, defaultStatusOption, strictEq_str_left,
        List.filter, parseStatus, includes, sameValueZero, eq_comm]
  refine ⟨key, ?_⟩
  intro range offset
  simp only [timeLink, makeQueryString, key, parseStatus_idem]

/-! ## The offset parser -/

/-- C1: `parseOffset` at strings that are not valid integers.  `parseInt`
does not raise on them, so the `catch` branch never runs: `"abc"` gives
`NaN`, `"12abc"` gives `12` and `"1.5"` gives `1`, none of them `0`.  The
empty string and an absent (`null` / `undefined`) input do give `0`. -/
theorem parseOffset_invalid_strings :
    parseOffset (JSValue.str "abc") = JSNumber.nan ∧
      parseOffset (JSValue.str "12abc") = JSNumber.fin 12 ∧
      parseOffset (JSValue.str "1.5") = JSNumber.fin 1 ∧
      parseOffset (JSValue.str "") = JSNumber.fin 0 ∧
      parseOffset JSValue.null = JSNumber.fin 0 ∧
      parseOffset JSValue.undefined = JSNumber.fin 0 := by
  decide

/-- C9: re-parsing is not idempotent at the offset `"abc"`.  Parsed once,
as `makeQueryString` does on the raw parameters, it is `NaN`, written
`offset=NaN`; the page parses it first, and `makeQueryString` then parses
the falsy `NaN` again, to `0`, written `offset=0`. -/
theorem makeQueryString_reparse_abc :
    makeQueryString
        { status := JSValue.null
          timeRange := parseTimeRange JSValue.null
          offset := JSValue.num (parseOffset (JSValue.str "abc")) }
        = "?timeRange=1d&offset=0" ∧
      makeQueryString
        { status := JSValue.null, timeRange := JSValue.null, offset := JSValue.str "abc" }
        = "?timeRange=1d&offset=NaN" := by
  decide

/-! ## The click handlers -/

/-- C5: at the empty response `{}` (no `ok`, no `errors`, no
`verification`) both handlers raise a `TypeError` while building the text
of the notification, and emit nothing; when the response carries a
`verification`, and neither a truthy `ok` nor `errors`, they emit the
"uncertain outcome" notification naming the user. -/
theorem handlers_empty_response :
    handleKickClick { ok := none, verification := none, errors := none } =
        Except.error JSError.typeError ∧
      handleBanClick { ok := none, verification := none, errors := none } =
        Except.error JSError.typeError ∧
      ∀ (ok : Option Bool) (verification : VerificationRecord), ok ≠ some true →
        handleKickClick { ok := ok, verification := some verification, errors := none } =
            Except.ok [Toast.toastErrors (ToastArg.text
              ("不太确定踢出「" ++ verification.targetUserName ++ "」是否成功。"))] ∧
          handleBanClick { ok := ok, verification := some verification, errors := none } =
            Except.ok [Toast.toastErrors (ToastArg.text
              ("不太确定封禁「" ++ verification.targetUserName ++ "」是否成功。"))] := by
  refine ⟨rfl, rfl, ?_⟩
  intro ok verification hok
  constructor
  · simp only [handleKickClick, Option.isSome_none, Bool.false_eq_true, if_false, hok,
      targetUserNameOf]
    rfl
  · simp only [handleBanClick, Option.isSome_none, Bool.false_eq_true, if_false, hok,
      targetUserNameOf]
    rfl

/-! ## Readiness -/

/-- C8: the list section is in exactly one of three views.  It shows the
table iff the chats state is loaded, there is no transport error, data is
present and data has no `errors` field; the retry view iff it does not show
the table and a transport error is present; the loading view otherwise.  A
payload carrying `errors` never renders the table and never dispatches the
chat to the shared state. -/
theorem view_spec (chatsState : ChatsState) (error : Option TransportError)
    (data : Option PageResult) :
    (view chatsState error data = View.table ↔
        chatsState.isLoaded = true ∧ error = none ∧
          ∃ d, data = some d ∧ d.errors = none) ∧
      (view chatsState error data = View.pageReLoading ↔
        view chatsState error data ≠ View.table ∧ error ≠ none) ∧
      (view chatsState error data = View.pageLoading ↔
        view chatsState error data ≠ View.table ∧ error = none) ∧
      ∀ d errors, data = some d → d.errors = some errors →
        view chatsState error data ≠ View.table ∧
          ∀ chat, Effect.dispatchLoadSelected chat ∉ dataEffect chatsState error data := by
  have hload : isLoaded chatsState error data = true ↔
      chatsState.isLoaded = true ∧ error = none ∧ ∃ d, data = some d ∧ d.errors = none := by
    cases data with
    | none => simp [isLoaded, truthyObject]
    | some d =>
      cases hE : d.errors <;> cases error <;> simp [isLoaded, truthyObject, hE]
  have htable : view chatsState error data = View.table ↔
      isLoaded chatsState error data = true := by
    unfold view
    by_cases h : isLoaded chatsState error data = true
    · simp [h]
    · cases error <;> simp [h, truthyObject]
  refine ⟨htable.trans hload, ?_, ?_, ?_⟩
  · unfold view
    by_cases h : isLoaded chatsState error data = true
    · simp [h]
    · cases error <;> simp [h, truthyObject]
  · unfold view
    by_cases h : isLoaded chatsState error data = true
    · simp [h]
    · cases error <;> simp [h, truthyObject]
  · intro d errors hd he
    subst hd
    have hnot : isLoaded chatsState error (some d) = false := by
      simp [isLoaded, truthyObject, he]
    refine ⟨?_, ?_⟩
    · rw [Ne, htable, hnot]
      simp
    · intro chat
      simp [dataEffect, he, hnot, truthyObject]

/-! ## Pagination links -/

/-- C4, as stated, fails at a large offset.  The URL offset
`1000000000000000000000` parses to the double `10^21`.  Adding or
subtracting `25` rounds back to `10^21`, which `makeQueryString` parses
again: `ToString` writes it `1e+21` and `parseInt` reads `1`.  Both links
carry `offset=1`, not `offset - 25` or `offset + 25`, whether the sum is
taken exactly or as the rounded double. -/
theorem pagination_links_at_1e21 :
    parseOffset (JSValue.str "1000000000000000000000") =
        JSNumber.fin 1000000000000000000000 ∧
      (pagination (JSValue.str "passed") (JSValue.str "1w")
          (JSNumber.fin 1000000000000000000000) 2).upTo =
        "?timeRange=1w&offset=1&status=passed" ∧
      (pagination (JSValue.str "passed") (JSValue.str "1w")
          (JSNumber.fin 1000000000000000000000) 2).downTo =
        "?timeRange=1w&offset=1&status=passed" ∧
      (pagination (JSValue.str "passed") (JSValue.str "1w")
          (JSNumber.fin 1000000000000000000000) 2).upTo ≠
        canonicalQueryString "passed" "1w" (max 0 (1000000000000000000000 - 25)) ∧
      (pagination (JSValue.str "passed") (JSValue.str "1w")
          (JSNumber.fin 1000000000000000000000) 2).downTo ≠
        canonicalQueryString "passed" "1w" (1000000000000000000000 + 25) ∧
      (pagination (JSValue.str "passed") (JSValue.str "1w")
          (JSNumber.fin 1000000000000000000000) 2).downTo ≠
        "?timeRange=1w&offset=" ++
          numToString (jsAdd (JSNumber.fin 1000000000000000000000) (JSNumber.fin 25)) ++
          "&status=passed" := by
  set_option maxRecDepth 100000 in decide

/-- C4, amended: for every integer current offset with
`|offset| + 25 < 2^53` and every number of returned records, the "previous"
link is the canonical query string whose offset is `max(0, offset - 25)` and
the "next" link the canonical query string whose offset is `offset + 25`,
both with the time range and status of the current page. -/
theorem pagination_links_safe (status timeRange : JSValue) (offset : Int) (length : Nat)
    (h : offset.natAbs + 25 < 2 ^ 53) :
    (pagination status timeRange (JSNumber.fin offset) length).upTo =
        canonicalQueryString (toStr (parseStatus status)) (toStr (parseTimeRange timeRange))
          (max 0 (offset - 25)) ∧
      (pagination status timeRange (JSNumber.fin offset) length).downTo =
        canonicalQueryString (toStr (parseStatus status)) (toStr (parseTimeRange timeRange))
          (offset + 25) := by
  constructor
  · by_cases hlt : offset < 25
    · have hmax : max 0 (offset - 25) = 0 := by omega
      simp only [pagination, jsLt, hlt, decide_True, if_true, hmax]
      exact makeQueryString_fin_safe status timeRange 0 (by decide)
    · have hmax : max 0 (offset - 25) = offset - 25 := by omega
      have hsafe : (offset - 25).natAbs < 2 ^ 53 := by omega
      have hsub : jsSub (JSNumber.fin offset) (JSNumber.fin 25) = JSNumber.fin (offset - 25) := by
        simp only [jsSub, jsNeg, jsAdd]
        rw [← Int.sub_eq_add_neg]
        exact roundToDouble_safe _ hsafe
      simp only [pagination, jsLt, hlt, decide_False, Bool.false_eq_true, if_false, hsub, hmax]
      exact makeQueryString_fin_safe status timeRange (offset - 25) hsafe
  · have hsafe : (offset + 25).natAbs < 2 ^ 53 := by omega
    have hadd : jsAdd (JSNumber.fin offset) (JSNumber.fin 25) = JSNumber.fin (offset + 25) := by
      simp only [jsAdd]
      exact roundToDouble_safe _ hsafe
    simp only [pagination, hadd]
    exact makeQueryString_fin_safe status timeRange (offset + 25) hsafe

/-- C4, witness: at offset 25 with 2 records the "previous" link carries
offset 0 and the "next" link offset 50. -/
theorem pagination_links_safe_witness :
    (25 : Int).natAbs + 25 < 2 ^ 53 ∧
      ((pagination (JSValue.str "passed") (JSValue.str "1w") (JSNumber.fin 25) 2).upTo =
          canonicalQueryString "passed" "1w" 0 ∧
        (pagination (JSValue.str "passed") (JSValue.str "1w") (JSNumber.fin 25) 2).downTo =
          canonicalQueryString "passed" "1w" 50) ∧
      canonicalQueryString "passed" "1w" 0 = "?timeRange=1w&offset=0&status=passed" ∧
      canonicalQueryString "passed" "1w" 50 = "?timeRange=1w&offset=50&status=passed" :=
  ⟨by decide,
    pagination_links_safe (JSValue.str "passed") (JSValue.str "1w") 25 2 (by decide),
    by decide, by decide⟩

/-! ## The fetch key -/

/-- C6, as stated, fails at a large offset.  With chat id 42 and the URL
offset `1000000000000000000000`, a well-formed integer, the page parses the
offset to the double `10^21` and `makeQueryString` parses that number
again, through `1e+21`, to `1`: the key carries `offset=1`.  It is neither
the endpoint followed by the canonical query string at that offset nor the
endpoint followed by `makeQueryString` of the URL parameters. -/
theorem fetchKey_at_1e21 :
    wellFormedOffset (JSValue.str "1000000000000000000000") =
        some 1000000000000000000000 ∧
      fetchKey (some { isLoaded := true, selected := JSValue.num (JSNumber.fin 42) })
          { status := JSValue.str "passed", timeRange := JSValue.str "1w",
            offset := JSValue.str "1000000000000000000000" } =
        some "/admin/api/chats/42/verifications?timeRange=1w&offset=1&status=passed" ∧
      canonicalQueryString "passed" "1w" 1000000000000000000000 =
        "?timeRange=1w&offset=1000000000000000000000&status=passed" ∧
      makeQueryString
          { status := JSValue.str "passed", timeRange := JSValue.str "1w",
            offset := JSValue.str "1000000000000000000000" } =
        "?timeRange=1w&offset=1e+21&status=passed" ∧
      fetchKey (some { isLoaded := true, selected := JSValue.num (JSNumber.fin 42) })
          { status := JSValue.str "passed", timeRange := JSValue.str "1w",
            offset := JSValue.str "1000000000000000000000" } ≠
        some ("/admin/api/chats/" ++ "42" ++ "/verifications" ++
          canonicalQueryString "passed" "1w" 1000000000000000000000) ∧
      fetchKey (some { isLoaded := true, selected := JSValue.num (JSNumber.fin 42) })
          { status := JSValue.str "passed", timeRange := JSValue.str "1w",
            offset := JSValue.str "1000000000000000000000" } ≠
        some ("/admin/api/chats/" ++ "42" ++ "/verifications" ++
          makeQueryString
            { status := JSValue.str "passed", timeRange := JSValue.str "1w",
              offset := JSValue.str "1000000000000000000000" }) := by
  set_option maxRecDepth 100000 in decide

/-- C6, amended: the fetch key is `null` whenever the chats state is
missing, not loaded, or has no selected chat id.  Otherwise, when the URL
offset is well formed (absent, empty, or a decimal integer literal) and
stands for an integer below `2^53` in magnitude, the key is
`/admin/api/chats/<selected>/verifications` followed by the canonical query
string of the URL parameters, which is also what `makeQueryString` gives on
them.  A key that is not `null` comes from a loaded state whose selected
chat id is neither `undefined` nor `null`.  With chat id 42 and the URL
`?timeRange=1w&status=passed&offset=25` the key is
`/admin/api/chats/42/verifications?timeRange=1w&offset=25&status=passed`. -/
theorem fetchKey_spec (chatsState : Option ChatsState) (search : SearchParams) :
    fetchKey none search = none ∧
      (∀ chats : ChatsState, chats.isLoaded = false ∨ truthy chats.selected = false →
        fetchKey (some chats) search = none) ∧
      (∀ (chats : ChatsState) (j : Int), chats.isLoaded = true →
        truthy chats.selected = true → wellFormedOffset search.offset = some j →
        j.natAbs < 2 ^ 53 →
        fetchKey (some chats) search =
            some ("/admin/api/chats/" ++ toStr chats.selected ++ "/verifications" ++
              canonicalQueryString (toStr (parseStatus search.status))
                (toStr (parseTimeRange search.timeRange)) j) ∧
          makeQueryString
              { status := search.status, timeRange := search.timeRange,
                offset := search.offset } =
            canonicalQueryString (toStr (parseStatus search.status))
              (toStr (parseTimeRange search.timeRange)) j) ∧
      (∀ key, fetchKey chatsState search = some key →
        ∃ chats, chatsState = some chats ∧ chats.isLoaded = true ∧
          chats.selected ≠ JSValue.undefined ∧ chats.selected ≠ JSValue.null ∧
          key = "/admin/api/chats/" ++ toStr chats.selected ++ "/verifications" ++
            apiQueryString search) ∧
      fetchKey (some { isLoaded := true, selected := JSValue.num (JSNumber.fin 42) })
          { status := JSValue.str "passed", timeRange := JSValue.str "1w",
            offset := JSValue.str "25" } =
        some "/admin/api/chats/42/verifications?timeRange=1w&offset=25&status=passed" := by
  refine ⟨rfl, ?_, ?_, ?_, by decide⟩
  · intro chats h
    rcases h with h | h <;> simp [fetchKey, h]
  · intro chats j h1 h2 hw hj
    have hp := parseOffset_wellFormed search.offset j hw hj
    constructor
    · have hapi : apiQueryString search =
          canonicalQueryString (toStr (parseStatus search.status))
            (toStr (parseTimeRange search.timeRange)) j := by
        unfold apiQueryString
        rw [hp, makeQueryString_fin_safe search.status (parseTimeRange search.timeRange) j hj,
          parseTimeRange_idem]
      simp [fetchKey, h1, h2, makeEndpoint, hapi]
    · exact makeQueryString_of_parseOffset
        { status := search.status, timeRange := search.timeRange, offset := search.offset }
        j hp hj
  · intro key hkey
    cases chatsState with
    | none => simp [fetchKey] at hkey
    | some chats =>
      refine ⟨chats, rfl, ?_⟩
      by_cases hc : (chats.isLoaded && truthy chats.selected) = true
      · simp only [fetchKey, hc, if_true, Option.some.injEq, makeEndpoint] at hkey
        simp only [Bool.and_eq_true] at hc
        refine ⟨hc.1, ?_, ?_, hkey.symm⟩
        · intro hu
          rw [hu] at hc
          simp [truthy] at hc
        · intro hu
          rw [hu] at hc
          simp [truthy] at hc
      · simp [fetchKey, hc] at hkey

/-- C6, witness: chat id 42 with the URL
`?timeRange=1w&status=passed&offset=25`, whose offset is the well-formed
integer 25, gives the key
`/admin/api/chats/42/verifications?timeRange=1w&offset=25&status=passed`. -/
theorem fetchKey_spec_witness :
    wellFormedOffset (JSValue.str "25") = some 25 ∧
      fetchKey (some { isLoaded := true, selected := JSValue.num (JSNumber.fin 42) })
          { status := JSValue.str "passed", timeRange := JSValue.str "1w",
            offset := JSValue.str "25" } =
        some ("/admin/api/chats/" ++ toStr (JSValue.num (JSNumber.fin 42)) ++
          "/verifications" ++
          canonicalQueryString (toStr (parseStatus (JSValue.str "passed")))
            (toStr (parseTimeRange (JSValue.str "1w"))) 25) ∧
      "/admin/api/chats/" ++ toStr (JSValue.num (JSNumber.fin 42)) ++ "/verifications" ++
          canonicalQueryString (toStr (parseStatus (JSValue.str "passed")))
            (toStr (parseTimeRange (JSValue.str "1w"))) 25 =
        "/admin/api/chats/42/verifications?timeRange=1w&offset=25&status=passed" :=
  ⟨by decide,
    ((fetchKey_spec none
        { status := JSValue.str "passed", timeRange := JSValue.str "1w",
          offset := JSValue.str "25" }).2.2.1
      { isLoaded := true, selected := JSValue.num (JSNumber.fin 42) } 25 rfl (by decide)
      (by decide) (by decide)).1,
    by decide⟩

end Verifications
